import Mathlib

/-!
Shallow embedding of the FAT filesystem in `src/fs.h` / `src/fs.cpp`
(class `FS`), for checking the natural-language specification against the
code.

Modelling conventions:
* `BLOCK_SIZE` is the parameter `bs` (it is defined in `disk.h`, which is
  not part of the repository; the spec fixes it as a power of two,
  typically 4096).  Derived quantities: a directory block holds
  `bs / 64` entries (`sizeof(dir_entry) = 64`), the FAT has `bs / 2`
  entries (`int16_t fat[BLOCK_SIZE/2]`).
* The disk (class `Disk`, also from the missing `disk.h`; the spec
  describes it as a fixed array of whole blocks with `read`/`write`) is a
  `List BlockVal`; a block is stored either as raw bytes, as an array of
  directory entries, or as a serialized FAT, matching the three ways
  `fs.cpp` interprets a block.  The `reinterpret_cast` reinterpretation of
  one kind of block as another is not modelled byte-exactly; all claims
  are settled on states where every block is read with the kind it was
  written with.
* Machine integers (`uint16_t` block numbers, `uint32_t` sizes, bytes) are
  `Nat`; FAT entries (`int16_t`) are `Int` so that `FAT_EOF = -1` keeps
  its source value.  No operation modelled here exercises wrap-around.
* Each `FS` member function only touches the member `fat`, the disk and
  its arguments, except `cd`, which also reads and writes `current_dir`;
  the functions are therefore modelled as `...Core` functions on
  `(fat, disk)` plus a wrapper threading `current_dir` unchanged.
* Loops of the form `while (block != FAT_EOF)` have no termination proof
  in the source (a cyclic FAT makes them diverge); they are modelled with
  an explicit fuel argument, instantiated at call sites with more fuel
  than any terminating chain can consume (`bs / 2 + 1`).
-/

namespace Fs

/-- Directory entry: the 64-byte `dir_entry` record of `fs.h`.  A slot is
free when its name is empty (`file_name[0] == '\0'`). -/
structure DirEntry where
  file_name : String
  size : Nat
  first_blk : Nat
  type : Nat
  access_rights : Nat
deriving DecidableEq

/-- Zeroed directory entry (`memset(&e, 0, sizeof(dir_entry))`). -/
def emptyEntry : DirEntry := ⟨"", 0, 0, 0, 0⟩

/-- Content of one disk block, tagged with the interpretation under which
`fs.cpp` wrote it: raw data bytes, an array of `dir_entry`, or the
serialized FAT. -/
inductive BlockVal where
  | bytes (data : List Nat)
  | dir (entries : List DirEntry)
  | fatBlk (fat : List Int)
deriving DecidableEq

/-- Default block value used for out-of-range reads (never exercised by
the theorems below: all states keep block numbers in range). -/
def bdef : BlockVal := BlockVal.bytes []

/-- State of the `FS` object plus the disk: the in-memory FAT
(`int16_t fat[BLOCK_SIZE/2]`), the block device contents, and
`current_dir`. -/
structure FSState where
  fat : List Int
  disk : List BlockVal
  current_dir : Nat
deriving DecidableEq

/-- Number of `dir_entry` slots in one directory block
(`BLOCK_SIZE / sizeof(dir_entry)`). -/
def epb (bs : Nat) : Nat := bs / 64

/-- Number of FAT entries (`BLOCK_SIZE / 2`). -/
def fatLen (bs : Nat) : Nat := bs / 2

/-- Interpret a block as a directory-entry array
(`reinterpret_cast<dir_entry*>(block)`). -/
def readDirBlock : BlockVal → List DirEntry
  | .dir es => es
  | _ => []

/-- Interpret a block as raw bytes. -/
def blockBytes : BlockVal → List Nat
  | .bytes d => d
  | _ => []

/-- Scan the FAT for the first `FAT_FREE` slot, in ascending order from
index 0, as every allocation loop in `fs.cpp` does
(`for (int i = 0; i < BLOCK_SIZE / 2; ++i) if (fat[i] == FAT_FREE)`). -/
def findFreeFat (fat : List Int) : Option Nat :=
  fat.findIdx? (fun v => v == 0)

/-- First directory slot whose entry has the given name
(`file_name == path`, first match). -/
def findName (entries : List DirEntry) (name : String) : Option Nat :=
  entries.findIdx? (fun e => e.file_name == name)

/-- First free directory slot (`file_name[0] == '\0'`). -/
def findEmptySlot (entries : List DirEntry) : Option Nat :=
  entries.findIdx? (fun e => e.file_name == "")

/-- Truncation performed by `strncpy(dst, src, 55)` on a name. -/
def trunc55 (s : String) : String := s.take 55

/-- Block numbers of the chain starting at `b`, following the in-memory
FAT until `FAT_EOF`, with fuel (the source loop
`while (block != FAT_EOF) { ...; block = fat[block]; }` has no bound). -/
def chainBlocks (fat : List Int) : Nat → Int → List Nat
  | 0, _ => []
  | fuel + 1, b =>
    if b = -1 then []
    else b.toNat :: chainBlocks fat fuel (fat.getD b.toNat 0)

/-- Payload of a file entry: the first `size` bytes of the concatenation
of its chain's blocks (the spec's *file payload*). -/
def filePayload (bs : Nat) (s : FSState) (e : DirEntry) : List Nat :=
  ((chainBlocks s.fat (fatLen bs + 1) (Int.ofNat e.first_blk)).foldr
    (fun b acc => blockBytes (s.disk.getD b bdef) ++ acc) []).take e.size

/-! ## format (`fs.cpp:22-47`)

Rebuilds the in-memory FAT (blocks 0 and 1 `FAT_EOF`, all others
`FAT_FREE`), writes a zeroed root directory block whose slot 0 has
`first_blk = ROOT_BLOCK`, `type = TYPE_DIR`, `size = 0` and an empty
name, and returns 0.  The source writes only `ROOT_BLOCK`: it does not
write the FAT to `FAT_BLOCK`, and it does not touch `current_dir`. -/

/-- Root directory block as `format` writes it: all slots zeroed, then
slot 0 overwritten with the `root_dir` record (whose name stays empty). -/
def rootDirInit (bs : Nat) : List DirEntry :=
  ⟨"", 0, 0, 1, 0⟩ :: List.replicate (epb bs - 1) emptyEntry

/-- Fresh FAT built by `format`. -/
def formatFat (bs : Nat) : List Int :=
  (List.range (fatLen bs)).map (fun i => if i = 0 ∨ i = 1 then (-1 : Int) else 0)

/-- Core of `FS::format` on `(fat, disk)`. -/
def formatCore (bs : Nat) (_fat : List Int) (disk : List BlockVal) :
    List Int × List BlockVal × Int :=
  (formatFat bs, disk.set 0 (BlockVal.dir (rootDirInit bs)), 0)

/-- `FS::format`. -/
def format (bs : Nat) (s : FSState) : FSState × Int :=
  let r := formatCore bs s.fat s.disk
  (⟨r.1, r.2.1, s.current_dir⟩, r.2.2)

/-! ## create (`fs.cpp:49-155`)

Reads the payload from standard input (modelled as the argument
`input`).  Rejects names of length ≥ 56, names already present in the
root block, and a full root block.  Picks `first_free_block` as the
lowest `FAT_FREE` index.  Then writes the payload in `BLOCK_SIZE`
chunks: the first chunk goes to `first_free_block`, but each subsequent
chunk is written to block `i + 1` where `i` is the loop index — the
source links `fat[last_block] = i + 1` and `last_block = i + 1` instead
of allocating further free blocks.  Persists the FAT to block 1,
re-reads the root block, inserts the new entry (`size = payload length`,
`first_blk = first_free_block`, `type = TYPE_FILE`,
`access_rights = READ | WRITE`) in the first free slot, writes the root
block back, and returns 0. -/

/-- Chunk `i` of the payload, zero-padded to a whole block
(`memcpy(block, data + i*BLOCK_SIZE, min(BLOCK_SIZE, size - start))` on
a zeroed buffer). -/
def chunkAt (bs : Nat) (data : List Nat) (i : Nat) : List Nat :=
  let slice := (data.drop (i * bs)).take bs
  slice ++ List.replicate (bs - slice.length) 0

/-- One iteration of the chain-writing loop of `FS::create`; the state is
`(last_block, fat, disk)`. -/
def createStep (bs total : Nat) (data : List Nat)
    (st : Nat × List Int × List BlockVal) (i : Nat) :
    Nat × List Int × List BlockVal :=
  let last := st.1
  let disk1 := st.2.2.set last (BlockVal.bytes (chunkAt bs data i))
  if i < total - 1 then (i + 1, st.2.1.set last (Int.ofNat (i + 1)), disk1)
  else (last, st.2.1.set last (-1), disk1)

/-- Core of `FS::create` on `(fat, disk)`; returns the new
`(fat, disk, return value)`. -/
def createCore (bs : Nat) (fat : List Int) (disk : List BlockVal)
    (filepath : String) (input : List Nat) :
    List Int × List BlockVal × Int :=
  if 56 ≤ filepath.length then (fat, disk, -1)
  else
    let entries := readDirBlock (disk.getD 0 bdef)
    if entries.any (fun e => e.file_name == filepath) then (fat, disk, -1)
    else if epb bs ≤ entries.countP (fun e => !(e.file_name == "")) then
      (fat, disk, -1)
    else
      match findFreeFat fat with
      | none => (fat, disk, -1)
      | some firstFree =>
        let total := (input.length + bs - 1) / bs
        let r := (List.range total).foldl (createStep bs total input)
          (firstFree, fat, disk)
        let fat1 := r.2.1
        let disk1 := r.2.2.set 1 (BlockVal.fatBlk fat1)
        let newFile : DirEntry := ⟨trunc55 filepath, input.length, firstFree, 0, 6⟩
        let root := readDirBlock (disk1.getD 0 bdef)
        let root1 :=
          match findEmptySlot root with
          | none => root
          | some k => root.set k newFile
        (fat1, disk1.set 0 (BlockVal.dir root1), 0)

/-- `FS::create`; `input` is the byte sequence read from standard input
(each line plus its trailing newline, already concatenated). -/
def create (bs : Nat) (s : FSState) (filepath : String) (input : List Nat) :
    FSState × Int :=
  let r := createCore bs s.fat s.disk filepath input
  (⟨r.1, r.2.1, s.current_dir⟩, r.2.2)

/-! ## cat (`fs.cpp:157-187`)

Looks the name up in the root block (first match; no type or permission
check).  Walks the chain from `first_blk` and for every visited block
executes `std::cout.write(block_data, BLOCK_SIZE)` — a whole block per
chain link, not `size` bytes in total. -/

/-- Core of `FS::cat`: returns `(return value, bytes written to standard
output)`; the state is unchanged. -/
def catCore (bs : Nat) (fat : List Int) (disk : List BlockVal)
    (filepath : String) : Int × List Nat :=
  let entries := readDirBlock (disk.getD 0 bdef)
  match findName entries filepath with
  | none => (-1, [])
  | some i =>
    let e := entries.getD i emptyEntry
    let blocks := chainBlocks fat (fatLen bs + 1) (Int.ofNat e.first_blk)
    (0, blocks.foldr (fun b acc => blockBytes (disk.getD b bdef) ++ acc) [])

/-- `FS::cat`. -/
def cat (bs : Nat) (s : FSState) (filepath : String) :
    FSState × Int × List Nat :=
  let r := catCore bs s.fat s.disk filepath
  (s, r.1, r.2)

/-! ## ls (`fs.cpp:190-217`)

Reads the root block and prints one row (name, kind, size) per non-empty
slot.  (The body names the buffer `dir_entries` while the declared local
is `root_entries`; the only buffer in scope is the root block just read,
which is what is modelled.)  The output is modelled as the list of rows. -/

/-- Core of `FS::ls`: the printed rows `(name, type, size)`. -/
def lsCore (disk : List BlockVal) : Int × List (String × Nat × Nat) :=
  let entries := readDirBlock (disk.getD 0 bdef)
  (0, (entries.filter (fun e => !(e.file_name == ""))).map
    (fun e => (e.file_name, e.type, e.size)))

/-- `FS::ls`. -/
def ls (s : FSState) : FSState × Int × List (String × Nat × Nat) :=
  let r := lsCore s.disk
  (s, r.1, r.2)

/-! ## cp (`fs.cpp:220-313`)

Finds the source entry in the root block (first match) and rejects an
existing destination name.  Copies the chain block by block; for each
source block it scans the FAT for the first `FAT_FREE` slot **without
marking it used**, writes the source block's contents there, and links
`fat[prev] = dest`.  After the loop, `fat[prev] = FAT_EOF`, the FAT is
persisted, and the new entry (same `size`, `type`, `access_rights`,
`first_blk` = first destination block) is inserted into the first free
slot of the root buffer read at the start. -/

/-- Copy loop of `FS::cp`.  Arguments: fuel, current source block,
previous destination block (`-1` encoded as `none`), `new_file.first_blk`
so far, FAT, disk.  Returns the mutated FAT and disk, the recorded
`first_blk`, the last destination block, and `false` when the loop hit
`return -1` (no free block). -/
def cpLoop : Nat → Int → Option Nat → Nat → List Int → List BlockVal →
    List Int × List BlockVal × Nat × Option Nat × Bool
  | 0, _, prev, firstB, fat, disk => (fat, disk, firstB, prev, true)
  | fuel + 1, srcB, prev, firstB, fat, disk =>
    if srcB = -1 then (fat, disk, firstB, prev, true)
    else
      match findFreeFat fat with
      | none => (fat, disk, firstB, prev, false)
      | some dest =>
        let data := blockBytes (disk.getD srcB.toNat bdef)
        let disk1 := disk.set dest (BlockVal.bytes data)
        let fat1 := match prev with
          | none => fat
          | some p => fat.set p (Int.ofNat dest)
        let firstB1 := match prev with
          | none => dest
          | some _ => firstB
        cpLoop fuel (fat1.getD srcB.toNat 0) (some dest) firstB1 fat1 disk1

/-- Core of `FS::cp` on `(fat, disk)`. -/
def cpCore (bs : Nat) (fat : List Int) (disk : List BlockVal)
    (sourcepath destpath : String) : List Int × List BlockVal × Int :=
  let entries := readDirBlock (disk.getD 0 bdef)
  match findName entries sourcepath with
  | none => (fat, disk, -1)
  | some i =>
    if entries.any (fun e => e.file_name == destpath) then (fat, disk, -1)
    else
      let src := entries.getD i emptyEntry
      let r := cpLoop (fatLen bs + 1) (Int.ofNat src.first_blk) none 0 fat disk
      if r.2.2.2.2 = false then (r.1, r.2.1, -1)
      else
        let fat1 := match r.2.2.2.1 with
          | none => r.1
          | some p => r.1.set p (-1)
        let disk1 := r.2.1.set 1 (BlockVal.fatBlk fat1)
        let newFile : DirEntry :=
          ⟨trunc55 destpath, src.size, r.2.2.1, src.type, src.access_rights⟩
        let root1 :=
          match findEmptySlot entries with
          | none => entries
          | some k => entries.set k newFile
        (fat1, disk1.set 0 (BlockVal.dir root1), 0)

/-- `FS::cp`. -/
def cp (bs : Nat) (s : FSState) (sourcepath destpath : String) :
    FSState × Int :=
  let r := cpCore bs s.fat s.disk sourcepath destpath
  (⟨r.1, r.2.1, s.current_dir⟩, r.2.2)

/-! ## mv (`fs.cpp:318-354`)

Finds the source entry and returns -1 when the destination name already
exists — for any kind of entry, including an existing directory, so the
move-into-directory branch described in the header comment is never
taken.  Otherwise it overwrites the `file_name` field of the found entry
in place and writes the root block back; the FAT and all data blocks are
untouched. -/

/-- Core of `FS::mv` on `(fat, disk)`. -/
def mvCore (fat : List Int) (disk : List BlockVal)
    (sourcepath destpath : String) : List Int × List BlockVal × Int :=
  let entries := readDirBlock (disk.getD 0 bdef)
  match findName entries sourcepath with
  | none => (fat, disk, -1)
  | some i =>
    if entries.any (fun e => e.file_name == destpath) then (fat, disk, -1)
    else
      let e := entries.getD i emptyEntry
      let entries1 := entries.set i { e with file_name := trunc55 destpath }
      (fat, disk.set 0 (BlockVal.dir entries1), 0)

/-- `FS::mv`. -/
def mv (s : FSState) (sourcepath destpath : String) : FSState × Int :=
  let r := mvCore s.fat s.disk sourcepath destpath
  (⟨r.1, r.2.1, s.current_dir⟩, r.2.2)

/-! ## rm (`fs.cpp:358-391`)

Finds the entry in the root block (no type check, no emptiness check for
directories), frees every block of its chain in the in-memory FAT,
zeroes the directory slot, persists the FAT to block 1 and the root
block to block 0, and returns 0. -/

/-- Chain-freeing loop of `FS::rm`
(`while (block != FAT_EOF) { next = fat[block]; fat[block] = FAT_FREE; }`). -/
def freeChain : Nat → List Int → Int → List Int
  | 0, fat, _ => fat
  | fuel + 1, fat, b =>
    if b = -1 then fat
    else freeChain fuel (fat.set b.toNat 0) (fat.getD b.toNat 0)

/-- Core of `FS::rm` on `(fat, disk)`. -/
def rmCore (bs : Nat) (fat : List Int) (disk : List BlockVal)
    (filepath : String) : List Int × List BlockVal × Int :=
  let entries := readDirBlock (disk.getD 0 bdef)
  match findName entries filepath with
  | none => (fat, disk, -1)
  | some i =>
    let e := entries.getD i emptyEntry
    let fat1 := freeChain (fatLen bs + 1) fat (Int.ofNat e.first_blk)
    let entries1 := entries.set i emptyEntry
    (fat1, (disk.set 1 (BlockVal.fatBlk fat1)).set 0 (BlockVal.dir entries1), 0)

/-- `FS::rm`. -/
def rm (bs : Nat) (s : FSState) (filepath : String) : FSState × Int :=
  let r := rmCore bs s.fat s.disk filepath
  (⟨r.1, r.2.1, s.current_dir⟩, r.2.2)

/-! ## append (`fs.cpp:396-525`)

Scans the root block once without `break`, so the **last** matching slot
wins for both names.  Requires `READ` on the source and `WRITE` on the
destination.  Reads the source content: the block equal to
`file1.first_blk` contributes its first `file1.size` bytes, every other
chain block contributes `BLOCK_SIZE` bytes (for a multi-block source
this reads `file1.size` bytes from the first block — out of bounds in
the source when `size > BLOCK_SIZE`; modelled as a capped `take`).
Walks the destination chain to its last block; computes
`space = BLOCK_SIZE - size % BLOCK_SIZE` — which is `BLOCK_SIZE`, not
0, when the last block is exactly full — and overwrites the last block
from offset `BLOCK_SIZE - space` onward.  Allocates further blocks
(marking them `FAT_EOF` when found), links them, writes the remaining
slices, persists the FAT, re-reads the root block and rewrites the
destination entry with the accumulated size. -/

/-- Last matching entry of a scan without `break`
(`for i ...: if (name == p) file = entries[i];`). -/
def lastMatch (entries : List DirEntry) (name : String) : Option DirEntry :=
  entries.foldl (fun acc e => if e.file_name == name then some e else acc) none

/-- Source-content read of `FS::append`: walks the chain; the block whose
number equals `first` contributes `sz` bytes, others a whole block. -/
def readSrcChain (disk : List BlockVal) (fat : List Int) (first sz : Nat) :
    Nat → Int → List Nat
  | 0, _ => []
  | fuel + 1, b =>
    if b = -1 then []
    else
      let d := blockBytes (disk.getD b.toNat bdef)
      let part := if b.toNat = first then d.take sz else d
      part ++ readSrcChain disk fat first sz fuel (fat.getD b.toNat 0)

/-- Last block of a chain (`last_block` after the walk), starting from
`-1`. -/
def lastBlockOf (fat : List Int) : Nat → Int → Int → Int
  | 0, _, last => last
  | fuel + 1, b, last =>
    if b = -1 then last else lastBlockOf fat fuel (fat.getD b.toNat 0) b

/-- Overwrite `data.length` bytes of `buf` starting at offset `off`
(`memcpy(buf + off, data, data.length)`). -/
def memwrite (buf : List Nat) (off : Nat) (data : List Nat) : List Nat :=
  buf.take off ++ data ++ buf.drop (off + data.length)

/-- State threaded through the block-allocation loop of `FS::append`. -/
structure AppendSt where
  remaining : Nat
  offset : Nat
  last : Int
  first2 : Nat
  size2 : Nat
  buf : List Nat
  fat : List Int
  disk : List BlockVal
  ok : Bool

/-- Allocation loop of `FS::append` (`while (remaining_data > 0)`):
finds the first free FAT slot and marks it `FAT_EOF`, links it after
`last` (or makes it `file2.first_blk` when the destination chain was
empty), writes the next slice over the reused buffer, and repeats;
`ok := false` models `return -1` when no free block exists. -/
def appendLoop (bs : Nat) (content : List Nat) : Nat → AppendSt → AppendSt
  | 0, st => st
  | fuel + 1, st =>
    if st.remaining = 0 then st
    else
      match findFreeFat st.fat with
      | none => { st with ok := false }
      | some nb =>
        let fatA := st.fat.set nb (-1)
        let fatB := if st.last = -1 then fatA
          else fatA.set st.last.toNat (Int.ofNat nb)
        let first2A := if st.last = -1 then nb else st.first2
        let ws := min bs st.remaining
        let bufA := memwrite st.buf 0 ((content.drop st.offset).take ws)
        appendLoop bs content fuel
          { remaining := st.remaining - ws, offset := st.offset + ws,
            last := Int.ofNat nb, first2 := first2A, size2 := st.size2 + ws,
            buf := bufA, fat := fatB, disk := st.disk.set nb (BlockVal.bytes bufA),
            ok := st.ok }

/-- Core of `FS::append` on `(fat, disk)`. -/
def appendCore (bs : Nat) (fat : List Int) (disk : List BlockVal)
    (filepath1 filepath2 : String) : List Int × List BlockVal × Int :=
  let entries := readDirBlock (disk.getD 0 bdef)
  match lastMatch entries filepath1, lastMatch entries filepath2 with
  | some f1, some f2 =>
    if f1.access_rights &&& 4 = 0 then (fat, disk, -1)
    else if f2.access_rights &&& 2 = 0 then (fat, disk, -1)
    else
      let content := readSrcChain disk fat f1.first_blk f1.size
        (fatLen bs + 1) (Int.ofNat f1.first_blk)
      let last0 := lastBlockOf fat (fatLen bs + 1) (Int.ofNat f2.first_blk) (-1)
      let space := if last0 = -1 then 0 else bs - f2.size % bs
      let st0 : AppendSt :=
        if 0 < space ∧ ¬ last0 = -1 then
          let lb := blockBytes (disk.getD last0.toNat bdef)
          let ws := min space content.length
          let buf1 := memwrite lb (bs - space) (content.take ws)
          { remaining := content.length - ws, offset := ws, last := last0,
            first2 := f2.first_blk, size2 := f2.size + ws, buf := buf1,
            fat := fat, disk := disk.set last0.toNat (BlockVal.bytes buf1),
            ok := true }
        else
          { remaining := content.length, offset := 0, last := last0,
            first2 := f2.first_blk, size2 := f2.size, buf := [],
            fat := fat, disk := disk, ok := true }
      let st1 := appendLoop bs content (content.length + 1) st0
      if st1.ok = false then (st1.fat, st1.disk, -1)
      else
        let disk1 := st1.disk.set 1 (BlockVal.fatBlk st1.fat)
        let root := readDirBlock (disk1.getD 0 bdef)
        let f2A : DirEntry := { f2 with size := st1.size2, first_blk := st1.first2 }
        let root1 :=
          match findName root filepath2 with
          | none => root
          | some k => root.set k f2A
        (st1.fat, disk1.set 0 (BlockVal.dir root1), 0)
  | _, _ => (fat, disk, -1)

/-- `FS::append`. -/
def append (bs : Nat) (s : FSState) (filepath1 filepath2 : String) :
    FSState × Int :=
  let r := appendCore bs s.fat s.disk filepath1 filepath2
  (⟨r.1, r.2.1, s.current_dir⟩, r.2.2)

/-! ## mkdir (`fs.cpp:531-601`)

Reads the root block, finds the first free slot (no duplicate or length
check), allocates the first free FAT block (marking it `FAT_EOF`), and
writes the new directory block: all slots zeroed, slot 0 set to a `..`
entry with `first_blk = ROOT_BLOCK`, `type = TYPE_DIR`, `size = 0`,
`access_rights = 0`.  No `.` entry is written.  The entry inserted into
the root has `size = 0`, `type = TYPE_DIR`, `access_rights = 0`.  The
FAT is **not** written to disk. -/

/-- The `..` entry `FS::mkdir` places in slot 0 of a new directory
block. -/
def dotdotEntry : DirEntry := ⟨"..", 0, 0, 1, 0⟩

/-- Directory block written by `FS::mkdir`. -/
def mkdirBlock (bs : Nat) : List DirEntry :=
  dotdotEntry :: List.replicate (epb bs - 1) emptyEntry

/-- Core of `FS::mkdir` on `(fat, disk)`. -/
def mkdirCore (bs : Nat) (fat : List Int) (disk : List BlockVal)
    (dirpath : String) : List Int × List BlockVal × Int :=
  let entries := readDirBlock (disk.getD 0 bdef)
  match findEmptySlot entries with
  | none => (fat, disk, -1)
  | some k =>
    match findFreeFat fat with
    | none => (fat, disk, -1)
    | some b =>
      let fat1 := fat.set b (-1)
      let disk1 := disk.set b (BlockVal.dir (mkdirBlock bs))
      let newDir : DirEntry := ⟨trunc55 dirpath, 0, b, 1, 0⟩
      let root1 := entries.set k newDir
      (fat1, disk1.set 0 (BlockVal.dir root1), 0)

/-- `FS::mkdir`. -/
def mkdir (bs : Nat) (s : FSState) (dirpath : String) : FSState × Int :=
  let r := mkdirCore bs s.fat s.disk dirpath
  (⟨r.1, r.2.1, s.current_dir⟩, r.2.2)

/-! ## cd (`fs.cpp:604-639`)

`cd "/"` resets `current_dir` to `ROOT_BLOCK`.  `cd ".."` at the root
prints `Error: Already at root directory` and returns -1; elsewhere it
reads the current directory block and follows slot 0's `first_blk` (the
source reads a whole block into a single `dir_entry`, so only slot 0
lands in the variable).  Any other name is looked up among the current
block's entries with `type == TYPE_DIR`. -/

/-- `FS::cd` (the only operation that reads or writes `current_dir`). -/
def cd (s : FSState) (dirpath : String) : FSState × Int :=
  if dirpath = "/" then ({ s with current_dir := 0 }, 0)
  else if dirpath = ".." then
    if s.current_dir = 0 then (s, -1)
    else
      let e := (readDirBlock (s.disk.getD s.current_dir bdef)).getD 0 emptyEntry
      ({ s with current_dir := e.first_blk }, 0)
  else
    let entries := readDirBlock (s.disk.getD s.current_dir bdef)
    match entries.findIdx? (fun e => e.type == 1 && e.file_name == dirpath) with
    | none => (s, -1)
    | some i => ({ s with current_dir := (entries.getD i emptyEntry).first_blk }, 0)

/-! ## Derived predicates -/

/-- Block stored as raw data of exactly one block size. -/
def isFullBytes (bs : Nat) : BlockVal → Bool
  | .bytes d => d.length == bs
  | _ => false

/-- The serialized FAT on disk (block 1) agrees with the in-memory FAT. -/
def fatPersisted (st : FSState) : Prop :=
  st.disk.getD 1 bdef = BlockVal.fatBlk st.fat

/-! ## Concrete instances used by counterexamples and witnesses

`BLOCK_SIZE` lives in the absent `disk.h`; the spec constrains it to a
power of two.  The concrete instances below fix it at 256 (4 directory
entries per block, 128 FAT entries) so that every evaluation stays
within kernel reduction limits. -/

/-- Concrete block size for the closed instances. -/
def B256 : Nat := 256

/-- Fresh 16-block disk. -/
def disk16 : List BlockVal := List.replicate 16 bdef

/-- Freshly formatted state. -/
def st0 : FSState := (format B256 ⟨[], disk16, 0⟩).1

/-- FAT with blocks 0-3 end-of-chain and the rest free. -/
def fatA : List Int := [-1, -1, -1, -1] ++ List.replicate 124 0

/-- Root block holding one directory entry `d` whose block is 2. -/
def rootC5 : List DirEntry :=
  [⟨"d", 0, 2, 1, 7⟩, emptyEntry, emptyEntry, emptyEntry]

/-- Directory block of `d`: slot 2 (beyond `.`/`..`) is occupied. -/
def dblkC5 : List DirEntry :=
  [⟨"..", 0, 0, 1, 0⟩, emptyEntry, ⟨"x", 4, 3, 0, 6⟩, emptyEntry]

/-- State with a non-empty directory `d`. -/
def stC5 : FSState :=
  ⟨fatA, [BlockVal.dir rootC5, bdef, BlockVal.dir dblkC5,
    BlockVal.bytes (List.replicate 256 7)] ++ List.replicate 12 bdef, 0⟩

/-- FAT in which file `a` owns the two-block chain `2 → 3`. -/
def fatC6 : List Int := [-1, -1, 3, -1] ++ List.replicate 124 0

/-- Root block holding the two-block file `a` (257 bytes). -/
def rootC6 : List DirEntry :=
  [⟨"a", 257, 2, 0, 6⟩, emptyEntry, emptyEntry, emptyEntry]

/-- State with a file whose payload spans two blocks. -/
def stC6 : FSState :=
  ⟨fatC6, [BlockVal.dir rootC6, bdef, BlockVal.bytes (List.replicate 256 1),
    BlockVal.bytes (2 :: List.replicate 255 0)] ++ List.replicate 12 bdef, 0⟩

/-- Root block with a 1-byte file `s` and a file `d` of exactly one full
block (256 bytes). -/
def rootC7 : List DirEntry :=
  [⟨"s", 1, 3, 0, 6⟩, ⟨"d", 256, 2, 0, 6⟩, emptyEntry, emptyEntry]

/-- State for appending to a file whose size is a positive multiple of
the block size. -/
def stC7 : FSState :=
  ⟨fatA, [BlockVal.dir rootC7, bdef, BlockVal.bytes (List.replicate 256 97),
    BlockVal.bytes (98 :: List.replicate 255 0)] ++ List.replicate 12 bdef, 0⟩

/-- Root block with the single-block files `a` (3 bytes) and `b`
(4 bytes). -/
def rootApp : List DirEntry :=
  [⟨"a", 3, 2, 0, 6⟩, ⟨"b", 4, 3, 0, 6⟩, emptyEntry, emptyEntry]

/-- State for a partial-block append of `a` onto `b`. -/
def stApp : FSState :=
  ⟨fatA, [BlockVal.dir rootApp, bdef, BlockVal.bytes (List.replicate 256 49),
    BlockVal.bytes (List.replicate 256 50)] ++ List.replicate 12 bdef, 0⟩

/-- Root block with a file `f` and an existing directory `d`. -/
def rootC8 : List DirEntry :=
  [⟨"f", 3, 2, 0, 6⟩, ⟨"d", 0, 3, 1, 0⟩, emptyEntry, emptyEntry]

/-- State with a file and a directory, for `mv f d`. -/
def stC8 : FSState :=
  ⟨fatA, [BlockVal.dir rootC8, bdef,
    BlockVal.bytes (List.replicate 256 5), BlockVal.dir (mkdirBlock 256)] ++
    List.replicate 12 bdef, 0⟩

end Fs

set_option maxRecDepth 100000

namespace Fs

/-! # Theorems -/

/-! ## Claim C9 — `cd ".."` at the root -/

/-- Claim C9, counterexample: on a freshly formatted state (working
directory at the root), `cd ".."` returns -1 and not the claimed 0 —
`FS::cd` prints `Error: Already at root directory` and refuses instead
of treating the root as its own parent. -/
theorem C9_cd_dotdot_at_root_cex :
    Fs.st0.current_dir = 0 ∧ Fs.cd Fs.st0 ".." = (Fs.st0, -1) := by
  decide

/-- Claim C9 as amended: whenever the current working directory is the
root, `cd ".."` fails with return value -1 and leaves the state (and in
particular the working directory) unchanged. -/
theorem C9_cd_dotdot_at_root (s : FSState) (h : s.current_dir = 0) :
    Fs.cd s ".." = (s, -1) := by
  unfold cd
  rw [if_neg (by decide), if_pos rfl, if_pos h]

/-- Claim C9, witness for the amended theorem at the formatted state. -/
theorem C9_cd_dotdot_at_root_witness : Fs.cd Fs.st0 ".." = (Fs.st0, -1) :=
  C9_cd_dotdot_at_root Fs.st0 rfl

/-! ## Claim C5 — `rm` on a non-empty directory -/

/-- Claim C5, counterexample: in `stC5`, entry `d` is a directory
(`type = TYPE_DIR`) whose block has a non-empty slot 2 (beyond `.` and
`..`), yet `rm d` returns 0 — the claim requires failure with
`DirectoryNotEmpty` and return value -1.  `FS::rm` contains no type or
emptiness check at all. -/
theorem C5_rm_nonempty_dir_cex :
    ((Fs.readDirBlock (Fs.stC5.disk.getD 0 Fs.bdef)).getD 0 Fs.emptyEntry).type = 1 ∧
    (Fs.readDirBlock (Fs.stC5.disk.getD 2 Fs.bdef)).getD 2 Fs.emptyEntry ≠ Fs.emptyEntry ∧
    (Fs.rm Fs.B256 Fs.stC5 "d").2 = 0 := by
  decide

/-- Claim C5 as amended: `rm` succeeds for every entry found in the root
block, regardless of its type and regardless of whether its directory
block is empty — it frees the chain and zeroes the slot
unconditionally, so `rm d` on a directory succeeds even when slots
beyond indices 0 and 1 are occupied, and `DirectoryNotEmpty` is never
produced. -/
theorem C5_rm_ignores_directory_contents (bs : Nat) (s : FSState)
    (fp : String) (i : Nat)
    (hi : Fs.findName (Fs.readDirBlock (s.disk.getD 0 Fs.bdef)) fp = some i)
    (h0 : 0 < s.disk.length) :
    (Fs.rm bs s fp).2 = 0 ∧
    Fs.readDirBlock ((Fs.rm bs s fp).1.disk.getD 0 Fs.bdef) =
      (Fs.readDirBlock (s.disk.getD 0 Fs.bdef)).set i Fs.emptyEntry := by
  unfold rm rmCore
  simp only [hi]
  refine ⟨trivial, ?_⟩
  rw [List.getD_eq_getElem?_getD, List.getElem?_set_self (by simpa using h0)]
  rfl

/-- Claim C5, witness for the amended theorem: removing the non-empty
directory `d` of `stC5` succeeds and zeroes its root slot. -/
theorem C5_rm_ignores_directory_contents_witness :
    (Fs.rm Fs.B256 Fs.stC5 "d").2 = 0 ∧
    Fs.readDirBlock ((Fs.rm Fs.B256 Fs.stC5 "d").1.disk.getD 0 Fs.bdef) =
      (Fs.readDirBlock (Fs.stC5.disk.getD 0 Fs.bdef)).set 0 Fs.emptyEntry :=
  C5_rm_ignores_directory_contents Fs.B256 Fs.stC5 "d" 0 (by decide) (by decide)

/-! ## Claim C8 — `mv` with an existing directory destination -/

/-- Claim C8, counterexample: in `stC8`, `d` is an existing directory,
and the claim says `mv f d` moves `f`'s entry into `d`'s block and
succeeds; instead `FS::mv` hits its `Destination file already exists`
check and returns -1 with the state unchanged. -/
theorem C8_mv_into_directory_cex :
    (Fs.readDirBlock (Fs.stC8.disk.getD 0 Fs.bdef)).getD 1 Fs.emptyEntry =
      (⟨"d", 0, 3, 1, 0⟩ : Fs.DirEntry) ∧
    Fs.mv Fs.stC8 "f" "d" = (Fs.stC8, -1) := by
  decide

/-- Claim C8 as amended: `mv` never moves an entry into a directory —
whenever the destination name exists in the root block (file or
directory alike) it fails with -1 and changes nothing; otherwise it
renames in place, overwriting only the `file_name` field of the found
entry and rewriting block 0, with the FAT and all data blocks
untouched. -/
theorem C8_mv_renames_only (s : FSState) (sp dp : String) :
    ((Fs.readDirBlock (s.disk.getD 0 Fs.bdef)).any
        (fun e => e.file_name == dp) = true →
      Fs.mv s sp dp = (s, -1)) ∧
    (∀ i, Fs.findName (Fs.readDirBlock (s.disk.getD 0 Fs.bdef)) sp = some i →
      (Fs.readDirBlock (s.disk.getD 0 Fs.bdef)).any
        (fun e => e.file_name == dp) = false →
      (Fs.mv s sp dp).2 = 0 ∧ (Fs.mv s sp dp).1.fat = s.fat ∧
      (Fs.mv s sp dp).1.current_dir = s.current_dir ∧
      (Fs.mv s sp dp).1.disk = s.disk.set 0 (Fs.BlockVal.dir
        ((Fs.readDirBlock (s.disk.getD 0 Fs.bdef)).set i
          { (Fs.readDirBlock (s.disk.getD 0 Fs.bdef)).getD i Fs.emptyEntry with
            file_name := Fs.trunc55 dp }))) := by
  constructor
  · intro hdp
    unfold mv mvCore
    cases hsp : findName (readDirBlock (s.disk.getD 0 bdef)) sp with
    | none => simp only [hsp]
    | some i => simp only [hsp, hdp, if_true]
  · intro i hi hdp
    unfold mv mvCore
    simp only [hi, hdp, Bool.false_eq_true, if_false]
    refine ⟨trivial, trivial, trivial, trivial⟩

/-- Claim C8, witness for the amended theorem: both directions at
concrete states — `mv f d` onto the existing directory `d` fails, and a
plain rename in `st0` (after creating file `f`) succeeds touching only
the name field. -/
theorem C8_mv_renames_only_witness :
    Fs.mv Fs.stC8 "f" "d" = (Fs.stC8, -1) :=
  (C8_mv_renames_only Fs.stC8 "f" "d").1 (by decide)

/-! ## Claim C4 — layout of a freshly made directory block -/

/-- Claim C4, counterexample: after a successful `mkdir d` on the
formatted state, the new directory block (block 2) has slot 0 holding a
`..` entry (not `.`), with `access_rights = 0` (not
`READ|WRITE|EXECUTE = 7`); slot 1 is free (there is no `.` entry at
all); and the entry inserted into the parent also has
`access_rights = 0`. -/
theorem C4_mkdir_layout_cex :
    (Fs.mkdir Fs.B256 Fs.st0 "d").2 = 0 ∧
    (Fs.readDirBlock ((Fs.mkdir Fs.B256 Fs.st0 "d").1.disk.getD 2 Fs.bdef)).getD 0
      Fs.emptyEntry = (⟨"..", 0, 0, 1, 0⟩ : Fs.DirEntry) ∧
    ((Fs.readDirBlock ((Fs.mkdir Fs.B256 Fs.st0 "d").1.disk.getD 2 Fs.bdef)).getD 0
      Fs.emptyEntry).file_name ≠ "." ∧
    ((Fs.readDirBlock ((Fs.mkdir Fs.B256 Fs.st0 "d").1.disk.getD 2 Fs.bdef)).getD 0
      Fs.emptyEntry).access_rights ≠ 7 ∧
    (Fs.readDirBlock ((Fs.mkdir Fs.B256 Fs.st0 "d").1.disk.getD 2 Fs.bdef)).getD 1
      Fs.emptyEntry = Fs.emptyEntry ∧
    (Fs.readDirBlock ((Fs.mkdir Fs.B256 Fs.st0 "d").1.disk.getD 0 Fs.bdef)).getD 0
      Fs.emptyEntry = (⟨"d", 0, 2, 1, 0⟩ : Fs.DirEntry) := by
  decide

/-- Claim C4 as amended: a successful `mkdir` writes a directory block
whose slot 0 is a `..` entry with `first_blk = ROOT_BLOCK`,
`type = TYPE_DIR`, `size = 0` and `access_rights = 0`, and whose other
slots are all free (no `.` entry is created); the entry inserted into
the parent block has `size = 0`, `type = TYPE_DIR`,
`first_blk = new block`, `access_rights = 0`; and the in-memory FAT
marks the new block `FAT_EOF`. -/
theorem C4_mkdir_block_layout (bs : Nat) (s : FSState) (dn : String) (k b : Nat)
    (hk : Fs.findEmptySlot (Fs.readDirBlock (s.disk.getD 0 Fs.bdef)) = some k)
    (hb : Fs.findFreeFat s.fat = some b)
    (hbd : b < s.disk.length) (hb0 : b ≠ 0) (h0d : 0 < s.disk.length) :
    (Fs.mkdir bs s dn).2 = 0 ∧
    (Fs.mkdir bs s dn).1.fat = s.fat.set b (-1) ∧
    (Fs.mkdir bs s dn).1.disk.getD b Fs.bdef = Fs.BlockVal.dir (Fs.mkdirBlock bs) ∧
    Fs.readDirBlock ((Fs.mkdir bs s dn).1.disk.getD 0 Fs.bdef) =
      (Fs.readDirBlock (s.disk.getD 0 Fs.bdef)).set k ⟨Fs.trunc55 dn, 0, b, 1, 0⟩ ∧
    (Fs.mkdirBlock bs).getD 0 Fs.emptyEntry = Fs.dotdotEntry ∧
    (∀ j, 1 ≤ j → (Fs.mkdirBlock bs).getD j Fs.emptyEntry = Fs.emptyEntry) := by
  unfold mkdir mkdirCore
  simp only [hk, hb]
  refine ⟨trivial, trivial, ?_, ?_, rfl, ?_⟩
  · rw [List.getD_eq_getElem?_getD, List.getElem?_set_ne (by omega),
      List.getElem?_set_self (by simpa using hbd)]
    rfl
  · rw [List.getD_eq_getElem?_getD,
      List.getElem?_set_self (by simpa using h0d)]
    rfl
  · intro j hj
    match j, hj with
    | j + 1, _ =>
      show (List.replicate (epb bs - 1) emptyEntry).getD j emptyEntry = emptyEntry
      rw [List.getD_eq_getElem?_getD, List.getElem?_replicate]
      split <;> rfl

/-- Claim C4, witness for the amended theorem at the formatted state
(`mkdir d` picks slot 0 of the root block and block 2). -/
theorem C4_mkdir_block_layout_witness :
    (Fs.mkdir Fs.B256 Fs.st0 "d").2 = 0 ∧
    (Fs.mkdir Fs.B256 Fs.st0 "d").1.fat = Fs.st0.fat.set 2 (-1) ∧
    (Fs.mkdir Fs.B256 Fs.st0 "d").1.disk.getD 2 Fs.bdef =
      Fs.BlockVal.dir (Fs.mkdirBlock Fs.B256) ∧
    Fs.readDirBlock ((Fs.mkdir Fs.B256 Fs.st0 "d").1.disk.getD 0 Fs.bdef) =
      (Fs.readDirBlock (Fs.st0.disk.getD 0 Fs.bdef)).set 0
        ⟨Fs.trunc55 "d", 0, 2, 1, 0⟩ ∧
    (Fs.mkdirBlock Fs.B256).getD 0 Fs.emptyEntry = Fs.dotdotEntry ∧
    (∀ j, 1 ≤ j →
      (Fs.mkdirBlock Fs.B256).getD j Fs.emptyEntry = Fs.emptyEntry) :=
  C4_mkdir_block_layout Fs.B256 Fs.st0 "d" 0 2 (by decide) (by decide)
    (by decide) (by decide) (by decide)

/-! ## Claim C3 — FAT persistence

Helper lemmas: along every success path of `create`, `cp`, `rm` and
`append`, the serialized FAT written to block 1 is the final in-memory
FAT; `format` and `mkdir` never write block 1. -/

/-- Length preservation of one `create` chain-writing step. -/
theorem createStep_disk_len (bs total : Nat) (data : List Nat)
    (st : Nat × List Int × List BlockVal) (i : Nat) :
    (Fs.createStep bs total data st i).2.2.length = st.2.2.length := by
  unfold createStep
  split <;> simp

/-- Length preservation of the `create` chain-writing loop. -/
theorem createFold_disk_len (bs total : Nat) (data : List Nat)
    (l : List Nat) (st : Nat × List Int × List BlockVal) :
    (l.foldl (Fs.createStep bs total data) st).2.2.length = st.2.2.length := by
  induction l generalizing st with
  | nil => rfl
  | cons a l ih => rw [List.foldl_cons, ih, createStep_disk_len]

/-- On every path, `createCore` either fails with -1 or leaves block 1
equal to the serialized final FAT. -/
theorem create_ret_or_persist (bs : Nat) (fat : List Int) (disk : List BlockVal)
    (p : String) (input : List Nat) (hd : 1 < disk.length) :
    (Fs.createCore bs fat disk p input).2.2 = -1 ∨
    (Fs.createCore bs fat disk p input).2.1.getD 1 Fs.bdef =
      Fs.BlockVal.fatBlk (Fs.createCore bs fat disk p input).1 := by
  simp only [createCore]
  repeat' split
  any_goals (left; rfl)
  all_goals right
  all_goals simp [List.getD_eq_getElem?_getD, List.getElem?_set,
    createFold_disk_len, hd]

/-- Length preservation of the `cp` copy loop. -/
theorem cpLoop_disk_len (fuel : Nat) : ∀ (srcB : Int) (prev : Option Nat)
    (firstB : Nat) (fat : List Int) (disk : List BlockVal),
    (Fs.cpLoop fuel srcB prev firstB fat disk).2.1.length = disk.length := by
  induction fuel with
  | zero => intros; rfl
  | succ n ih =>
    intro srcB prev firstB fat disk
    unfold cpLoop
    split
    · rfl
    · cases h : Fs.findFreeFat fat with
      | none => rfl
      | some dest =>
        simp only [h]
        rw [ih]
        simp

/-- On every path, `cpCore` either fails with -1 or leaves block 1 equal
to the serialized final FAT. -/
theorem cp_ret_or_persist (bs : Nat) (fat : List Int) (disk : List BlockVal)
    (p q : String) (hd : 1 < disk.length) :
    (Fs.cpCore bs fat disk p q).2.2 = -1 ∨
    (Fs.cpCore bs fat disk p q).2.1.getD 1 Fs.bdef =
      Fs.BlockVal.fatBlk (Fs.cpCore bs fat disk p q).1 := by
  simp only [cpCore]
  repeat' split
  any_goals (left; rfl)
  all_goals right
  all_goals simp [List.getD_eq_getElem?_getD, List.getElem?_set,
    cpLoop_disk_len, hd]

/-- On every path, `rmCore` either fails with -1 or leaves block 1 equal
to the serialized final FAT. -/
theorem rm_ret_or_persist (bs : Nat) (fat : List Int) (disk : List BlockVal)
    (p : String) (hd : 1 < disk.length) :
    (Fs.rmCore bs fat disk p).2.2 = -1 ∨
    (Fs.rmCore bs fat disk p).2.1.getD 1 Fs.bdef =
      Fs.BlockVal.fatBlk (Fs.rmCore bs fat disk p).1 := by
  simp only [rmCore]
  repeat' split
  any_goals (left; rfl)
  all_goals right
  all_goals simp [List.getD_eq_getElem?_getD, List.getElem?_set, hd]

/-- Length preservation of the `append` allocation loop. -/
theorem appendLoop_disk_len (bs : Nat) (content : List Nat) (fuel : Nat) :
    ∀ st : Fs.AppendSt,
    (Fs.appendLoop bs content fuel st).disk.length = st.disk.length := by
  induction fuel with
  | zero => intros; rfl
  | succ n ih =>
    intro st
    unfold appendLoop
    split
    · rfl
    · cases h : Fs.findFreeFat st.fat with
      | none => rfl
      | some nb =>
        simp only [h]
        rw [ih]
        simp

/-- On every path, `appendCore` either fails with -1 or leaves block 1
equal to the serialized final FAT. -/
theorem append_ret_or_persist (bs : Nat) (fat : List Int) (disk : List BlockVal)
    (p q : String) (hd : 1 < disk.length) :
    (Fs.appendCore bs fat disk p q).2.2 = -1 ∨
    (Fs.appendCore bs fat disk p q).2.1.getD 1 Fs.bdef =
      Fs.BlockVal.fatBlk (Fs.appendCore bs fat disk p q).1 := by
  simp only [appendCore]
  repeat' split
  any_goals (left; rfl)
  all_goals right
  all_goals simp [List.getD_eq_getElem?_getD, List.getElem?_set,
    appendLoop_disk_len, hd]

/-- Claim C3, counterexample: neither `format` nor `mkdir` writes the
FAT to disk before returning 0.  After `mkdir d` on the formatted state
the in-memory FAT marks block 2 `FAT_EOF` but block 1 on disk still
holds its previous content (here the blank block), and after `format`
on `stC5` block 1 likewise never receives the rebuilt FAT. -/
theorem C3_format_mkdir_not_persisted_cex :
    (Fs.mkdir Fs.B256 Fs.st0 "d").2 = 0 ∧
    (Fs.mkdir Fs.B256 Fs.st0 "d").1.fat.getD 2 0 = -1 ∧
    (Fs.mkdir Fs.B256 Fs.st0 "d").1.disk.getD 1 Fs.bdef ≠
      Fs.BlockVal.fatBlk (Fs.mkdir Fs.B256 Fs.st0 "d").1.fat ∧
    (Fs.format Fs.B256 Fs.stC5).2 = 0 ∧
    (Fs.format Fs.B256 Fs.stC5).1.disk.getD 1 Fs.bdef ≠
      Fs.BlockVal.fatBlk (Fs.format Fs.B256 Fs.stC5).1.fat := by
  decide

/-- Claim C3 as amended: `create`, `cp`, `rm` and `append` do persist
the in-memory FAT to block 1 before returning success, but `format` and
`mkdir` do not write the FAT block at all (see the counterexample), so
the claim holds only for the four operations listed here. -/
theorem C3_fat_persisted_on_success (bs : Nat) (s : FSState)
    (p q : String) (input : List Nat) (hd : 1 < s.disk.length) :
    ((Fs.create bs s p input).2 = 0 → Fs.fatPersisted (Fs.create bs s p input).1) ∧
    ((Fs.cp bs s p q).2 = 0 → Fs.fatPersisted (Fs.cp bs s p q).1) ∧
    ((Fs.rm bs s p).2 = 0 → Fs.fatPersisted (Fs.rm bs s p).1) ∧
    ((Fs.append bs s p q).2 = 0 → Fs.fatPersisted (Fs.append bs s p q).1) := by
  refine ⟨?_, ?_, ?_, ?_⟩
  · intro h0
    rcases create_ret_or_persist bs s.fat s.disk p input hd with h | h
    · have h0x : (Fs.createCore bs s.fat s.disk p input).2.2 = 0 := h0
      rw [h] at h0x
      exact absurd h0x (by decide)
    · exact h
  · intro h0
    rcases cp_ret_or_persist bs s.fat s.disk p q hd with h | h
    · have h0x : (Fs.cpCore bs s.fat s.disk p q).2.2 = 0 := h0
      rw [h] at h0x
      exact absurd h0x (by decide)
    · exact h
  · intro h0
    rcases rm_ret_or_persist bs s.fat s.disk p hd with h | h
    · have h0x : (Fs.rmCore bs s.fat s.disk p).2.2 = 0 := h0
      rw [h] at h0x
      exact absurd h0x (by decide)
    · exact h
  · intro h0
    rcases append_ret_or_persist bs s.fat s.disk p q hd with h | h
    · have h0x : (Fs.appendCore bs s.fat s.disk p q).2.2 = 0 := h0
      rw [h] at h0x
      exact absurd h0x (by decide)
    · exact h

/-- Claim C3, witness for the amended theorem: removing the file `d`
from `stC5` returns 0 and leaves block 1 holding the serialized final
FAT. -/
theorem C3_fat_persisted_on_success_witness :
    Fs.fatPersisted (Fs.rm Fs.B256 Fs.stC5 "d").1 :=
  (C3_fat_persisted_on_success Fs.B256 Fs.stC5 "d" "x" [] (by decide)).2.2.1
    (by decide)

/-! ## Claim C1 — chain allocation in `create`

`FS::create` finds `first_free_block` correctly, but its chain-writing
loop then uses the loop index: for chunk `i < total-1` it executes
`fat[last_block] = i + 1; last_block = i + 1`, so every chunk after the
first is "linked" to block `i + 1` — block numbers 1, 2, ... — instead
of to freshly allocated free blocks.  For a two-chunk payload the second
chunk is written over block 1 (the FAT block) and `fat[first] = 1`,
although block 1 is `FAT_EOF`, never `FAT_FREE`. -/

/-- Claim C1: `create` on a payload needing two blocks returns success
but links the chain to literal block 1 (`fat[first_free] = 1`), a block
that is not `FAT_FREE` (its FAT entry is `FAT_EOF`), and then overwrites
block 1 on disk with the serialized FAT; the lowest-free-first chain of
the claim is never built.  This contradicts both the claim and the
code's own `first_free_block` search, so it is recorded as a code bug. -/
theorem C1_create_chain_bug (bs : Nat) (s : FSState) (fp : String)
    (input : List Nat) (c : Nat)
    (hlen : fp.length < 56)
    (hdup : (readDirBlock (s.disk.getD 0 bdef)).any (fun e => e.file_name == fp) = false)
    (hcount : (readDirBlock (s.disk.getD 0 bdef)).countP
      (fun e => !(e.file_name == "")) < epb bs)
    (hfree : findFreeFat s.fat = some c)
    (hc1 : c ≠ 1) (hclen : c < s.fat.length)
    (hfat1 : s.fat.getD 1 0 = -1)
    (hlo : bs < input.length) (hhi : input.length ≤ 2 * bs)
    (hd1 : 1 < s.disk.length) :
    (create bs s fp input).2 = 0 ∧
    (create bs s fp input).1.fat = (s.fat.set c 1).set 1 (-1) ∧
    (create bs s fp input).1.fat.getD c 0 = 1 ∧
    ¬ s.fat.getD 1 0 = 0 ∧
    (create bs s fp input).1.disk.getD 1 bdef =
      BlockVal.fatBlk ((s.fat.set c 1).set 1 (-1)) := by
  have htot : (input.length + bs - 1) / bs = 2 :=
    Nat.div_eq_of_lt_le (by omega) (by omega)
  have hr2 : List.range 2 = [0, 1] := by decide
  simp only [create, createCore, hdup, Bool.false_eq_true, if_false, hfree, htot, hr2,
    List.foldl_cons, List.foldl_nil, createStep]
  rw [if_neg (by omega : ¬ 56 ≤ fp.length), if_neg (Nat.not_le.mpr hcount)]
  rw [List.getD_eq_getElem?_getD] at hfat1
  norm_num [List.getD_eq_getElem?_getD, List.getElem?_set, hd1,
    Ne.symm hc1, hclen, hfat1]

/-- Claim C1, witness: the failing input evaluated — a 300-byte payload
with `BLOCK_SIZE = 256` (the shape of the spec's 5000-byte payload with
`BLOCK_SIZE = 4096`) on the formatted state: `create` returns 0,
`fat[2] = 1` (not the next free block 3), and block 1 holds the FAT. -/
theorem C1_create_chain_bug_witness :
    (Fs.create Fs.B256 Fs.st0 "f" (List.replicate 300 65)).2 = 0 ∧
    (Fs.create Fs.B256 Fs.st0 "f" (List.replicate 300 65)).1.fat =
      (Fs.st0.fat.set 2 1).set 1 (-1) ∧
    (Fs.create Fs.B256 Fs.st0 "f" (List.replicate 300 65)).1.fat.getD 2 0 = 1 ∧
    ¬ Fs.st0.fat.getD 1 0 = 0 ∧
    (Fs.create Fs.B256 Fs.st0 "f" (List.replicate 300 65)).1.disk.getD 1
      Fs.bdef = Fs.BlockVal.fatBlk ((Fs.st0.fat.set 2 1).set 1 (-1)) :=
  C1_create_chain_bug Fs.B256 Fs.st0 "f" (List.replicate 300 65) 2
    (by decide) (by decide) (by decide) (by decide) (by decide) (by decide)
    (by decide) (by decide) (by decide) (by decide)

/-! ## Claim C2 — `cat` output granularity -/

/-- Claim C2, counterexample: after `create hi` with the 3-byte payload
`"hi\n"`, the entry's size is 3, yet `cat hi` writes 256 bytes (one
whole block: the payload followed by the zero padding), not exactly
`size` bytes — so the round trip emits more than `P`. -/
theorem C2_cat_size_cex :
    ((Fs.readDirBlock ((Fs.create Fs.B256 Fs.st0 "hi"
      [104, 105, 10]).1.disk.getD 0 Fs.bdef)).getD 0 Fs.emptyEntry).size = 3 ∧
    (Fs.cat Fs.B256 (Fs.create Fs.B256 Fs.st0 "hi" [104, 105, 10]).1
      "hi").2.2.length = 256 ∧
    (Fs.cat Fs.B256 (Fs.create Fs.B256 Fs.st0 "hi" [104, 105, 10]).1
      "hi").2.2 = [104, 105, 10] ++ List.replicate 253 0 := by
  decide

/-- Length of the byte stream `cat` builds from a chain whose blocks are
all full data blocks. -/
theorem foldrBlocks_len (bs : Nat) (disk : List BlockVal) (l : List Nat)
    (h : l.all (fun b => isFullBytes bs (disk.getD b bdef)) = true) :
    (l.foldr (fun b acc => blockBytes (disk.getD b bdef) ++ acc) []).length
      = l.length * bs := by
  induction l with
  | nil => simp
  | cons a l ih =>
    rw [List.all_cons, Bool.and_eq_true] at h
    rw [List.foldr_cons, List.length_append, ih h.2, List.length_cons]
    have hb : (blockBytes (disk.getD a bdef)).length = bs := by
      rcases hv : disk.getD a bdef with d | es | f <;> rw [hv] at h <;>
        simp [isFullBytes] at h
      · simp [blockBytes, h.1]
    rw [hb]
    ring

/-- Claim C2 as amended: for every found entry, `cat` returns 0 and
writes one whole block per chain link — `BLOCK_SIZE` bytes per visited
block, i.e. `size` rounded up to whole blocks — rather than exactly
`size` bytes; the round trip therefore prints the payload followed by
the zero padding of its final block. -/
theorem C2_cat_whole_blocks (bs : Nat) (s : FSState) (fp : String) (i : Nat)
    (hi : findName (readDirBlock (s.disk.getD 0 bdef)) fp = some i)
    (hfull : (chainBlocks s.fat (fatLen bs + 1)
        (Int.ofNat ((readDirBlock (s.disk.getD 0 bdef)).getD i
          emptyEntry).first_blk)).all
      (fun b => isFullBytes bs (s.disk.getD b bdef)) = true) :
    (cat bs s fp).2.1 = 0 ∧
    (cat bs s fp).2.2.length =
      (chainBlocks s.fat (fatLen bs + 1)
        (Int.ofNat ((readDirBlock (s.disk.getD 0 bdef)).getD i
          emptyEntry).first_blk)).length * bs := by
  unfold cat catCore
  simp only [hi]
  exact ⟨trivial, foldrBlocks_len bs s.disk _ hfull⟩

/-- Claim C2, witness for the amended theorem at the created 3-byte
file: its chain is the single block 2, so `cat` writes
`1 * BLOCK_SIZE = 256` bytes. -/
theorem C2_cat_whole_blocks_witness :
    (Fs.cat Fs.B256 (Fs.create Fs.B256 Fs.st0 "hi" [104, 105, 10]).1
      "hi").2.1 = 0 ∧
    (Fs.cat Fs.B256 (Fs.create Fs.B256 Fs.st0 "hi" [104, 105, 10]).1
      "hi").2.2.length =
      (Fs.chainBlocks (Fs.create Fs.B256 Fs.st0 "hi" [104, 105, 10]).1.fat
        (Fs.fatLen Fs.B256 + 1)
        (Int.ofNat ((Fs.readDirBlock ((Fs.create Fs.B256 Fs.st0 "hi"
          [104, 105, 10]).1.disk.getD 0 Fs.bdef)).getD 0
          Fs.emptyEntry).first_blk)).length * Fs.B256 :=
  C2_cat_whole_blocks Fs.B256 (Fs.create Fs.B256 Fs.st0 "hi"
    [104, 105, 10]).1 "hi" 0 (by decide) (by decide)

/-! ## Claims C6 and C7 — shared chain lemma -/

theorem chainBlocks_single (fat : List Int) (n : Nat) (b : Nat)
    (h : fat.getD b 0 = -1) :
    chainBlocks fat (n + 2) (Int.ofNat b) = [b] := by
  have hne : (Int.ofNat b) ≠ -1 := by
    intro hx
    have h0 : (0 : Int) ≤ Int.ofNat b := Int.ofNat_nonneg b
    rw [hx] at h0
    exact absurd h0 (by decide)
  rw [List.getD_eq_getElem?_getD] at h
  show chainBlocks fat (n + 1 + 1) (Int.ofNat b) = [b]
  simp [chainBlocks, hne, h]

/-! ## Claim C6 — `cp` and multi-block files -/

/-- Claim C6, counterexample: `a` is a 257-byte file spanning the chain
`2 → 3`.  `cp a b` succeeds and copies `size` and `access_rights`, but
because the copy loop never marks freshly found blocks as used, both
iterations pick the same free block 4: the copy's chain collapses to the
single block 4 holding only the last source block's bytes, so the
payloads of `a` and `b` differ (the claim asserts they are byte-equal
for multi-block files). -/
theorem C6_cp_multiblock_cex :
    (Fs.cp Fs.B256 Fs.stC6 "a" "b").2 = 0 ∧
    ((Fs.readDirBlock ((Fs.cp Fs.B256 Fs.stC6 "a" "b").1.disk.getD 0
      Fs.bdef)).getD 1 Fs.emptyEntry).file_name = "b" ∧
    ((Fs.readDirBlock ((Fs.cp Fs.B256 Fs.stC6 "a" "b").1.disk.getD 0
      Fs.bdef)).getD 1 Fs.emptyEntry).size = 257 ∧
    ((Fs.readDirBlock ((Fs.cp Fs.B256 Fs.stC6 "a" "b").1.disk.getD 0
      Fs.bdef)).getD 1 Fs.emptyEntry).first_blk = 4 ∧
    (Fs.cp Fs.B256 Fs.stC6 "a" "b").1.fat.getD 4 0 = -1 ∧
    Fs.filePayload Fs.B256 (Fs.cp Fs.B256 Fs.stC6 "a" "b").1
        ((Fs.readDirBlock ((Fs.cp Fs.B256 Fs.stC6 "a" "b").1.disk.getD 0
          Fs.bdef)).getD 1 Fs.emptyEntry) ≠
      Fs.filePayload Fs.B256 (Fs.cp Fs.B256 Fs.stC6 "a" "b").1
        ((Fs.readDirBlock ((Fs.cp Fs.B256 Fs.stC6 "a" "b").1.disk.getD 0
          Fs.bdef)).getD 0 Fs.emptyEntry) := by
  decide

/-- Claim C6 as amended: `cp a b` copies `size`, `type` and
`access_rights` and, **when `a`'s payload fits in a single block**, the
copy occupies one fresh block (disjoint from `a`'s) with identical
contents, so the payloads are byte-equal; for a source spanning more
than one block the copy's chain collapses to a single block (see the
counterexample) and payload equality fails. -/
theorem C6_cp_single_block (bs : Nat) (s : FSState) (sp dp : String)
    (i k d : Nat) (e : DirEntry)
    (hi : findName (readDirBlock (s.disk.getD 0 bdef)) sp = some i)
    (he : (readDirBlock (s.disk.getD 0 bdef)).getD i emptyEntry = e)
    (hnd : (readDirBlock (s.disk.getD 0 bdef)).any
      (fun x => x.file_name == dp) = false)
    (hk : findEmptySlot (readDirBlock (s.disk.getD 0 bdef)) = some k)
    (hfree : findFreeFat s.fat = some d)
    (hfd : s.fat.getD d 0 = 0)
    (hsingle : s.fat.getD e.first_blk 0 = -1)
    (hdlen : d < s.fat.length)
    (hd0 : d ≠ 0) (hd1 : d ≠ 1) (hddisk : d < s.disk.length)
    (hf0 : e.first_blk ≠ 0) (hf1 : e.first_blk ≠ 1)
    (h0disk : 0 < s.disk.length)
    (hfl : 1 ≤ fatLen bs) :
    (cp bs s sp dp).2 = 0 ∧
    readDirBlock ((cp bs s sp dp).1.disk.getD 0 bdef) =
      (readDirBlock (s.disk.getD 0 bdef)).set k
        ⟨trunc55 dp, e.size, d, e.type, e.access_rights⟩ ∧
    d ≠ e.first_blk ∧
    (cp bs s sp dp).1.disk.getD d bdef =
      BlockVal.bytes (blockBytes (s.disk.getD e.first_blk bdef)) ∧
    (cp bs s sp dp).1.fat.getD d 0 = -1 ∧
    (cp bs s sp dp).1.fat.getD e.first_blk 0 = -1 ∧
    filePayload bs (cp bs s sp dp).1
        ⟨trunc55 dp, e.size, d, e.type, e.access_rights⟩ =
      filePayload bs (cp bs s sp dp).1 e := by
  obtain ⟨m, hm⟩ : ∃ m, fatLen bs = m + 1 := ⟨fatLen bs - 1, by omega⟩
  have hdf : d ≠ e.first_blk := by
    intro hx
    rw [hx, hsingle] at hfd
    exact absurd hfd (by decide)
  have hne : (Int.ofNat e.first_blk) ≠ -1 := by
    intro hx
    have h0 : (0 : Int) ≤ Int.ofNat e.first_blk := Int.ofNat_nonneg e.first_blk
    rw [hx] at h0
    exact absurd h0 (by decide)
  have hsingle' : s.fat[e.first_blk]?.getD 0 = -1 := by
    rw [← List.getD_eq_getElem?_getD]
    exact hsingle
  have hloop : cpLoop (m + 1 + 1) (Int.ofNat e.first_blk) none 0 s.fat s.disk
      = (s.fat, s.disk.set d
          (BlockVal.bytes (blockBytes (s.disk.getD e.first_blk bdef))),
          d, some d, true) := by
    simp [cpLoop, hne, hfree, hsingle, hsingle']
  have hcp : cp bs s sp dp =
      ({ fat := s.fat.set d (-1),
         disk := ((s.disk.set d (BlockVal.bytes
             (blockBytes (s.disk.getD e.first_blk bdef)))).set 1
             (BlockVal.fatBlk (s.fat.set d (-1)))).set 0
             (BlockVal.dir ((readDirBlock (s.disk.getD 0 bdef)).set k
               ⟨trunc55 dp, e.size, d, e.type, e.access_rights⟩)),
         current_dir := s.current_dir }, 0) := by
    unfold cp cpCore
    simp only [hi, hnd, Bool.false_eq_true, if_false, he, hk, hm, hloop]
    rfl
  rw [hcp]
  have hfatd : (s.fat.set d (-1)).getD d 0 = -1 := by
    rw [List.getD_eq_getElem?_getD, List.getElem?_set_self hdlen]
    rfl
  have hfatf : (s.fat.set d (-1)).getD e.first_blk 0 = -1 := by
    rw [List.getD_eq_getElem?_getD, List.getElem?_set_ne hdf,
      ← List.getD_eq_getElem?_getD]
    exact hsingle
  refine ⟨rfl, ?_, hdf, ?_, hfatd, hfatf, ?_⟩
  · rw [List.getD_eq_getElem?_getD, List.getElem?_set_self (by simpa using h0disk)]
    rfl
  · rw [List.getD_eq_getElem?_getD, List.getElem?_set_ne (Ne.symm hd0),
      List.getElem?_set_ne (Ne.symm hd1),
      List.getElem?_set_self (by simpa using hddisk)]
    rfl
  · unfold filePayload
    rw [hm]
    rw [chainBlocks_single _ m d hfatd, chainBlocks_single _ m e.first_blk hfatf]
    simp only [List.foldr_cons, List.foldr_nil, List.getD_eq_getElem?_getD]
    rw [List.getElem?_set_ne (Ne.symm hd0), List.getElem?_set_ne (Ne.symm hd1),
      List.getElem?_set_self (by simpa using hddisk),
      List.getElem?_set_ne (Ne.symm hf0), List.getElem?_set_ne (Ne.symm hf1),
      List.getElem?_set_ne hdf]
    simp [blockBytes]

/-- Claim C6, witness for the amended theorem: copy a 3-byte file
created on the formatted state; the copy lands in block 3 with the same
bytes and payload. -/
theorem C6_cp_single_block_witness :
    (Fs.cp Fs.B256 (Fs.create Fs.B256 Fs.st0 "f" [10, 20, 30]).1 "f"
      "g").2 = 0 ∧
    Fs.readDirBlock (((Fs.cp Fs.B256 (Fs.create Fs.B256 Fs.st0 "f"
        [10, 20, 30]).1 "f" "g").1.disk.getD 0 Fs.bdef)) =
      (Fs.readDirBlock ((Fs.create Fs.B256 Fs.st0 "f"
        [10, 20, 30]).1.disk.getD 0 Fs.bdef)).set 1
        ⟨Fs.trunc55 "g", (3 : Nat), 3, 0, 6⟩ ∧
    (3 : Nat) ≠ (2 : Nat) ∧
    (Fs.cp Fs.B256 (Fs.create Fs.B256 Fs.st0 "f" [10, 20, 30]).1 "f"
      "g").1.disk.getD 3 Fs.bdef =
      Fs.BlockVal.bytes (Fs.blockBytes ((Fs.create Fs.B256 Fs.st0 "f"
        [10, 20, 30]).1.disk.getD 2 Fs.bdef)) ∧
    (Fs.cp Fs.B256 (Fs.create Fs.B256 Fs.st0 "f" [10, 20, 30]).1 "f"
      "g").1.fat.getD 3 0 = -1 ∧
    (Fs.cp Fs.B256 (Fs.create Fs.B256 Fs.st0 "f" [10, 20, 30]).1 "f"
      "g").1.fat.getD 2 0 = -1 ∧
    Fs.filePayload Fs.B256 (Fs.cp Fs.B256 (Fs.create Fs.B256 Fs.st0 "f"
        [10, 20, 30]).1 "f" "g").1 ⟨Fs.trunc55 "g", (3 : Nat), 3, 0, 6⟩ =
      Fs.filePayload Fs.B256 (Fs.cp Fs.B256 (Fs.create Fs.B256 Fs.st0 "f"
        [10, 20, 30]).1 "f" "g").1 ⟨"f", (3 : Nat), 2, 0, 6⟩ :=
  C6_cp_single_block Fs.B256 (Fs.create Fs.B256 Fs.st0 "f"
      [10, 20, 30]).1 "f" "g" 0 1 3 ⟨"f", (3 : Nat), 2, 0, 6⟩
    (by decide) (by decide) (by decide) (by decide) (by decide) (by decide)
    (by decide) (by decide) (by decide) (by decide) (by decide) (by decide)
    (by decide) (by decide) (by decide)

/-! ## Claim C7 — `append` and a full last block -/

/-- Claim C7, counterexample: `d` holds exactly one full block
(`size = 256 = BLOCK_SIZE`, a positive multiple of the block size) of
byte 97, `s` is the single byte 98.  `append s d` succeeds and the size
becomes 257 = S1 + S2, but the code computes
`space = BLOCK_SIZE - size % BLOCK_SIZE = BLOCK_SIZE` and overwrites the
full last block from offset 0, so the last byte of `d`'s payload is
still 97, not the appended 98 — the last `S1` bytes do not equal the
source content, contradicting the claim for `S2` a positive multiple of
`BLOCK_SIZE`. -/
theorem C7_append_full_block_cex :
    (Fs.append Fs.B256 Fs.stC7 "s" "d").2 = 0 ∧
    ((Fs.readDirBlock ((Fs.append Fs.B256 Fs.stC7 "s" "d").1.disk.getD 0
      Fs.bdef)).getD 1 Fs.emptyEntry).size = 257 ∧
    ((Fs.filePayload Fs.B256 (Fs.append Fs.B256 Fs.stC7 "s" "d").1
        ((Fs.readDirBlock ((Fs.append Fs.B256 Fs.stC7 "s" "d").1.disk.getD 0
          Fs.bdef)).getD 1 Fs.emptyEntry)).drop
      ((Fs.filePayload Fs.B256 (Fs.append Fs.B256 Fs.stC7 "s" "d").1
        ((Fs.readDirBlock ((Fs.append Fs.B256 Fs.stC7 "s" "d").1.disk.getD 0
          Fs.bdef)).getD 1 Fs.emptyEntry)).length - 1)) = [97] ∧
    [(97 : Nat)] ≠ [(98 : Nat)] := by
  decide

/-- Claim C7 as amended: append additivity and content correctness hold
when the destination's last block is not full — verified here for
single-block source and destination with `S2 < BLOCK_SIZE` and
`S1 ≤ BLOCK_SIZE - S2`: the new size is `S1 + S2`, the destination
payload becomes `old payload ++ source payload`, and its last `S1` bytes
equal the source's content; when `S2` is a positive multiple of
`BLOCK_SIZE` the code overwrites the last block from offset 0 and the
content property fails (see the counterexample). -/
theorem C7_append_partial_block (bs : Nat) (s : FSState) (sp dp : String)
    (f1 f2 : DirEntry) (j : Nat) (c1 c2 : List Nat)
    (h1 : lastMatch (readDirBlock (s.disk.getD 0 bdef)) sp = some f1)
    (h2 : lastMatch (readDirBlock (s.disk.getD 0 bdef)) dp = some f2)
    (hj : findName (readDirBlock (s.disk.getD 0 bdef)) dp = some j)
    (hr1 : ¬ f1.access_rights &&& 4 = 0)
    (hw2 : ¬ f2.access_rights &&& 2 = 0)
    (hb1 : s.disk.getD f1.first_blk bdef = BlockVal.bytes c1)
    (hlc1 : c1.length = bs)
    (hb2 : s.disk.getD f2.first_blk bdef = BlockVal.bytes c2)
    (hlc2 : c2.length = bs)
    (hs1 : s.fat.getD f1.first_blk 0 = -1)
    (hs2 : s.fat.getD f2.first_blk 0 = -1)
    (hsz2 : f2.size < bs)
    (hfit : f1.size ≤ bs - f2.size)
    (hf20 : f2.first_blk ≠ 0) (hf21 : f2.first_blk ≠ 1)
    (hf2d : f2.first_blk < s.disk.length)
    (h0d : 0 < s.disk.length)
    (hfl : 1 ≤ fatLen bs) :
    (append bs s sp dp).2 = 0 ∧
    readDirBlock ((append bs s sp dp).1.disk.getD 0 bdef) =
      (readDirBlock (s.disk.getD 0 bdef)).set j
        ⟨f2.file_name, f2.size + f1.size, f2.first_blk, f2.type,
          f2.access_rights⟩ ∧
    filePayload bs (append bs s sp dp).1
        ⟨f2.file_name, f2.size + f1.size, f2.first_blk, f2.type,
          f2.access_rights⟩ =
      c2.take f2.size ++ c1.take f1.size ∧
    filePayload bs s f1 = c1.take f1.size ∧
    (filePayload bs (append bs s sp dp).1
        ⟨f2.file_name, f2.size + f1.size, f2.first_blk, f2.type,
          f2.access_rights⟩).drop f2.size = filePayload bs s f1 ∧
    (append bs s sp dp).1.fat = s.fat := by
  obtain ⟨m, hm⟩ : ∃ m, fatLen bs = m + 1 := ⟨fatLen bs - 1, by omega⟩
  have hne1 : (Int.ofNat f1.first_blk) ≠ -1 := by
    intro hx
    have h0 : (0 : Int) ≤ Int.ofNat f1.first_blk := Int.ofNat_nonneg _
    rw [hx] at h0
    exact absurd h0 (by decide)
  have hne2 : (Int.ofNat f2.first_blk) ≠ -1 := by
    intro hx
    have h0 : (0 : Int) ≤ Int.ofNat f2.first_blk := Int.ofNat_nonneg _
    rw [hx] at h0
    exact absurd h0 (by decide)
  have hs1' : s.fat[f1.first_blk]?.getD 0 = -1 := by
    rw [← List.getD_eq_getElem?_getD]; exact hs1
  have hs2' : s.fat[f2.first_blk]?.getD 0 = -1 := by
    rw [← List.getD_eq_getElem?_getD]; exact hs2
  have hb1' : s.disk[f1.first_blk]?.getD bdef = BlockVal.bytes c1 := by
    rw [← List.getD_eq_getElem?_getD]; exact hb1
  have hb2' : s.disk[f2.first_blk]?.getD bdef = BlockVal.bytes c2 := by
    rw [← List.getD_eq_getElem?_getD]; exact hb2
  have hmod : f2.size % bs = f2.size := Nat.mod_eq_of_lt hsz2
  have hcl : (c1.take f1.size).length = f1.size := by
    rw [List.length_take, hlc1]
    omega
  have hcontent : readSrcChain s.disk s.fat f1.first_blk f1.size (m + 1 + 1)
      (Int.ofNat f1.first_blk) = c1.take f1.size := by
    simp [readSrcChain, hne1, hb1, hb1', hs1', blockBytes]
  have hlast : lastBlockOf s.fat (m + 1 + 1) (Int.ofNat f2.first_blk) (-1) =
      Int.ofNat f2.first_blk := by
    simp [lastBlockOf, hne2, hs2']
  have hspace : 0 < bs - f2.size := by omega
  have harith : bs - (bs - f2.size) = f2.size := by omega
  have hws : min (bs - f2.size) f1.size = f1.size := by omega
  have htn2 : (Int.ofNat f2.first_blk).toNat = f2.first_blk := rfl
  have happ : append bs s sp dp =
      ({ fat := s.fat,
         disk := ((s.disk.set f2.first_blk (BlockVal.bytes
             (memwrite c2 f2.size (c1.take f1.size)))).set 1
             (BlockVal.fatBlk s.fat)).set 0
             (BlockVal.dir ((readDirBlock (s.disk.getD 0 bdef)).set j
               ⟨f2.file_name, f2.size + f1.size, f2.first_blk, f2.type,
                 f2.access_rights⟩)),
         current_dir := s.current_dir }, 0) := by
    have hj' : findName (readDirBlock (s.disk[0]?.getD bdef)) dp = some j := by
      rw [← List.getD_eq_getElem?_getD]
      exact hj
    unfold append appendCore
    simp only [h1, h2, hr1, hw2, if_false, hm, hcontent, hlast, hne2, hmod,
      hcl, hws, harith, hspace, not_false_eq_true, and_true, if_true,
      Int.toNat_ofNat, Nat.sub_self, List.take_take, Nat.min_self, hb2,
      blockBytes, htn2]
    simp only [hb2, appendLoop, if_true]
    try simp only [Bool.true_eq_false, if_false]
    have h10 : ((1 : Nat) = 0) = False := by simp
    simp only [List.getD_eq_getElem?_getD, List.getElem?_set, List.length_set,
      hf20, hf21, h0d, hj', h10, if_false, eq_self_iff_true, if_true]
  rw [happ]
  have hA : (List.take f2.size c2).length = f2.size := by
    rw [List.length_take]
    omega
  have hpayNew : filePayload bs
      ({ fat := s.fat,
         disk := ((s.disk.set f2.first_blk (BlockVal.bytes
             (memwrite c2 f2.size (c1.take f1.size)))).set 1
             (BlockVal.fatBlk s.fat)).set 0
             (BlockVal.dir ((readDirBlock (s.disk.getD 0 bdef)).set j
               ⟨f2.file_name, f2.size + f1.size, f2.first_blk, f2.type,
                 f2.access_rights⟩)),
         current_dir := s.current_dir } : FSState)
      ⟨f2.file_name, f2.size + f1.size, f2.first_blk, f2.type,
        f2.access_rights⟩ = c2.take f2.size ++ c1.take f1.size := by
    unfold filePayload
    rw [hm]
    rw [chainBlocks_single s.fat m f2.first_blk hs2]
    simp only [List.foldr_cons, List.foldr_nil]
    rw [List.getD_eq_getElem?_getD, List.getElem?_set_ne (Ne.symm hf20),
      List.getElem?_set_ne (Ne.symm hf21), List.getElem?_set_self hf2d]
    simp only [Option.getD_some, blockBytes, List.append_nil]
    unfold memwrite
    rw [hcl, List.take_append_eq_append_take,
      List.take_of_length_le (by rw [List.length_append, hA, hcl]),
      List.length_append, hA, hcl, Nat.sub_self, List.take_zero,
      List.append_nil]
  have hpaySrc : filePayload bs s f1 = c1.take f1.size := by
    unfold filePayload
    rw [hm]
    rw [chainBlocks_single s.fat m f1.first_blk hs1]
    simp only [List.foldr_cons, List.foldr_nil, hb1, blockBytes,
      List.append_nil]
  refine ⟨rfl, ?_, hpayNew, hpaySrc, ?_, rfl⟩
  · rw [List.getD_eq_getElem?_getD,
      List.getElem?_set_self (by simpa using h0d)]
    rfl
  · rw [hpayNew, hpaySrc, List.drop_left' hA]

/-- Claim C7, witness for the amended theorem: append the 3-byte file
`a` to the 4-byte file `b` (both single-block); the result has size 7
and payload `b ++ a`. -/
theorem C7_append_partial_block_witness :
    (Fs.append Fs.B256 Fs.stApp "a" "b").2 = 0 ∧
    Fs.readDirBlock ((Fs.append Fs.B256 Fs.stApp "a" "b").1.disk.getD 0
      Fs.bdef) = (Fs.readDirBlock (Fs.stApp.disk.getD 0 Fs.bdef)).set 1
        ⟨"b", (4 : Nat) + 3, 3, 0, 6⟩ ∧
    Fs.filePayload Fs.B256 (Fs.append Fs.B256 Fs.stApp "a" "b").1
        ⟨"b", (4 : Nat) + 3, 3, 0, 6⟩ =
      (List.replicate 256 50).take 4 ++ (List.replicate 256 49).take 3 ∧
    Fs.filePayload Fs.B256 Fs.stApp ⟨"a", (3 : Nat), 2, 0, 6⟩ =
      (List.replicate 256 49).take 3 ∧
    (Fs.filePayload Fs.B256 (Fs.append Fs.B256 Fs.stApp "a" "b").1
        ⟨"b", (4 : Nat) + 3, 3, 0, 6⟩).drop 4 =
      Fs.filePayload Fs.B256 Fs.stApp ⟨"a", (3 : Nat), 2, 0, 6⟩ ∧
    (Fs.append Fs.B256 Fs.stApp "a" "b").1.fat = Fs.stApp.fat :=
  C7_append_partial_block Fs.B256 Fs.stApp "a" "b"
    ⟨"a", (3 : Nat), 2, 0, 6⟩ ⟨"b", (4 : Nat), 3, 0, 6⟩ 1
    (List.replicate 256 49) (List.replicate 256 50)
    (by decide) (by decide) (by decide) (by decide) (by decide) (by decide)
    (by decide) (by decide) (by decide) (by decide) (by decide) (by decide)
    (by decide) (by decide) (by decide) (by decide) (by decide) (by decide)

/-! ## Claim C10 — independence from the working directory -/

/-- Claim C10: `create`, `cat`, `ls`, `cp`, `mv`, `rm`, `append` and
`mkdir` read and write only the root block and the FAT; on two states
that differ only in `current_dir`, each returns the same value, produces
the same FAT, disk contents and output, and leaves its own
`current_dir` unchanged.  (`cd` reads `current_dir` and `format` is
excluded by the claim.) -/
theorem C10_ops_ignore_current_dir (bs : Nat) (fat : List Int)
    (disk : List BlockVal) (c c2 : Nat) (p q : String) (input : List Nat) :
    ((Fs.create bs ⟨fat, disk, c⟩ p input).1.fat =
        (Fs.create bs ⟨fat, disk, c2⟩ p input).1.fat) ∧
    ((Fs.create bs ⟨fat, disk, c⟩ p input).1.disk =
        (Fs.create bs ⟨fat, disk, c2⟩ p input).1.disk) ∧
    ((Fs.create bs ⟨fat, disk, c⟩ p input).2 =
        (Fs.create bs ⟨fat, disk, c2⟩ p input).2) ∧
    ((Fs.create bs ⟨fat, disk, c⟩ p input).1.current_dir = c) ∧
    ((Fs.cat bs ⟨fat, disk, c⟩ p).2.1 = (Fs.cat bs ⟨fat, disk, c2⟩ p).2.1) ∧
    ((Fs.cat bs ⟨fat, disk, c⟩ p).2.2 = (Fs.cat bs ⟨fat, disk, c2⟩ p).2.2) ∧
    ((Fs.cat bs ⟨fat, disk, c⟩ p).1.current_dir = c) ∧
    ((Fs.ls ⟨fat, disk, c⟩).2.1 = (Fs.ls ⟨fat, disk, c2⟩).2.1) ∧
    ((Fs.ls ⟨fat, disk, c⟩).2.2 = (Fs.ls ⟨fat, disk, c2⟩).2.2) ∧
    ((Fs.ls ⟨fat, disk, c⟩).1.current_dir = c) ∧
    ((Fs.cp bs ⟨fat, disk, c⟩ p q).1.fat =
        (Fs.cp bs ⟨fat, disk, c2⟩ p q).1.fat) ∧
    ((Fs.cp bs ⟨fat, disk, c⟩ p q).1.disk =
        (Fs.cp bs ⟨fat, disk, c2⟩ p q).1.disk) ∧
    ((Fs.cp bs ⟨fat, disk, c⟩ p q).2 = (Fs.cp bs ⟨fat, disk, c2⟩ p q).2) ∧
    ((Fs.cp bs ⟨fat, disk, c⟩ p q).1.current_dir = c) ∧
    ((Fs.mv ⟨fat, disk, c⟩ p q).1.fat = (Fs.mv ⟨fat, disk, c2⟩ p q).1.fat) ∧
    ((Fs.mv ⟨fat, disk, c⟩ p q).1.disk =
        (Fs.mv ⟨fat, disk, c2⟩ p q).1.disk) ∧
    ((Fs.mv ⟨fat, disk, c⟩ p q).2 = (Fs.mv ⟨fat, disk, c2⟩ p q).2) ∧
    ((Fs.mv ⟨fat, disk, c⟩ p q).1.current_dir = c) ∧
    ((Fs.rm bs ⟨fat, disk, c⟩ p).1.fat = (Fs.rm bs ⟨fat, disk, c2⟩ p).1.fat) ∧
    ((Fs.rm bs ⟨fat, disk, c⟩ p).1.disk =
        (Fs.rm bs ⟨fat, disk, c2⟩ p).1.disk) ∧
    ((Fs.rm bs ⟨fat, disk, c⟩ p).2 = (Fs.rm bs ⟨fat, disk, c2⟩ p).2) ∧
    ((Fs.rm bs ⟨fat, disk, c⟩ p).1.current_dir = c) ∧
    ((Fs.append bs ⟨fat, disk, c⟩ p q).1.fat =
        (Fs.append bs ⟨fat, disk, c2⟩ p q).1.fat) ∧
    ((Fs.append bs ⟨fat, disk, c⟩ p q).1.disk =
        (Fs.append bs ⟨fat, disk, c2⟩ p q).1.disk) ∧
    ((Fs.append bs ⟨fat, disk, c⟩ p q).2 =
        (Fs.append bs ⟨fat, disk, c2⟩ p q).2) ∧
    ((Fs.append bs ⟨fat, disk, c⟩ p q).1.current_dir = c) ∧
    ((Fs.mkdir bs ⟨fat, disk, c⟩ p).1.fat =
        (Fs.mkdir bs ⟨fat, disk, c2⟩ p).1.fat) ∧
    ((Fs.mkdir bs ⟨fat, disk, c⟩ p).1.disk =
        (Fs.mkdir bs ⟨fat, disk, c2⟩ p).1.disk) ∧
    ((Fs.mkdir bs ⟨fat, disk, c⟩ p).2 = (Fs.mkdir bs ⟨fat, disk, c2⟩ p).2) ∧
    ((Fs.mkdir bs ⟨fat, disk, c⟩ p).1.current_dir = c) :=
  ⟨rfl, rfl, rfl, rfl, rfl, rfl, rfl, rfl, rfl, rfl, rfl, rfl, rfl, rfl,
   rfl, rfl, rfl, rfl, rfl, rfl, rfl, rfl, rfl, rfl, rfl, rfl, rfl, rfl,
   rfl, rfl⟩

end Fs

